import Mathlib

/-!
Verification of the readiness-poller and port-derivation logic of the
coinbase-agentkit-blueprint repository, shallowly embedded from
src/docker.rs, src/agent_endpoint.rs, src/helpers.rs, src/deploy_agent.rs
and src/create_agent.rs.

Durations are modelled exactly in rational milliseconds; the multiplier
1.5 is 3/2 and every delay value the theorems below touch is exactly
representable in f32, so Duration arithmetic is modelled without loss.
Stateful loops are embedded as fuel-indexed recursive functions (the fuel
at attempt number a is max_attempts + 1 - a), and additionally as a
small-step run relation for the determinism claim.
-/

namespace CoinbaseAgentKit

/-- Stand-in for serde_json::Value (an external library type); the health
check never inspects it, it only passes the value through. -/
inductive JsonValue
  | null
  | boolVal (b : Bool)
  | numVal (n : Int)
  | strVal (s : String)
deriving DecidableEq

/-- Structure of a reqwest transport error as observed by check_health:
the two predicate flags the code branches on (docker.rs:282,285) plus its
Display text. -/
structure ReqwestError where
  is_timeout : Bool
  is_connect : Bool
  message : String
deriving DecidableEq

deriving instance DecidableEq for Except

/-- An HTTP response as consumed by check_health: status code and the
result of reading the body as text (.error means the body could not be
read or decoded). -/
structure HttpResponse where
  status : Nat
  body : Except String String
deriving DecidableEq

/-- StatusCode.is_success of the http crate: 2xx statuses. -/
def status_is_success (s : Nat) : Bool := 200 ≤ s && s < 300

/-- Message built at docker.rs:260 (= agent_endpoint.rs:83) when a 2xx body
fails to deserialize. -/
def parse_fail_msg (e : String) : String :=
  "Failed to parse health response: " ++ e

/-- Fallback body text used at docker.rs:268 when the body of a non-2xx
response cannot be read. -/
def unreadable_body_text : String := "Could not read response body"

/-- Body text of a non-2xx response: the text when readable, otherwise the
fallback (docker.rs:265-268). -/
def error_text (body : Except String String) : String :=
  match body with
  | .ok t => t
  | .error _ => unreadable_body_text

/-- Message built at docker.rs:274-277 for a non-2xx response. The status
is rendered by its Display instance, modelled as its decimal string. -/
def http_error_msg (status : Nat) (body_text : String) : String :=
  "Health check returned error status: " ++ (toString status ++ (" with body: " ++ body_text))

/-- Message built at docker.rs:284 for a timed-out probe; tr is the Debug
rendering of the timeout Duration. -/
def timed_out_msg (tr : String) (e : String) : String :=
  "Health check timed out after " ++ (tr ++ (": " ++ e))

/-- Message built at docker.rs:287 for a connect error. -/
def connect_error_msg (e : String) : String :=
  "Connection error during health check: " ++ e

/-- Message built at docker.rs:290 for every other transport failure. -/
def request_failed_msg (e : String) : String :=
  "Health check request failed: " ++ e

/-- Transport-error branch of AgentEndpoint::check_health
(docker.rs:280-292 = agent_endpoint.rs:103-115): a three-way branch on the
error flags, in this order. -/
def transport_error_msg (tr : String) (e : ReqwestError) : String :=
  if e.is_timeout then timed_out_msg tr e.message
  else if e.is_connect then connect_error_msg e.message
  else request_failed_msg e.message

/-- AgentEndpoint::check_health (docker.rs:230-294 = agent_endpoint.rs:
53-117). parse stands for serde_json deserialization of the body text (an
external library), tr for the Debug rendering of the timeout, and sent for
the result of the send() call. response.json() reads the body and then
parses it, so either failure reaches the parse-failure message. -/
def check_health (parse : String → Except String JsonValue) (tr : String)
    (sent : Except ReqwestError HttpResponse) : Except String JsonValue :=
  match sent with
  | .ok response =>
    if status_is_success response.status then
      match response.body with
      | .ok b =>
        match parse b with
        | .ok j => .ok j
        | .error e => .error (parse_fail_msg e)
      | .error e => .error (parse_fail_msg e)
    else
      .error (http_error_msg response.status (error_text response.body))
  | .error e => .error (transport_error_msg tr e)

/-- Error string returned after exhausting all attempts; docker.rs:358-361,
helpers.rs:289-292 and deploy_agent.rs:481-484 all build this same string. -/
def health_fail_msg (max_attempts : Nat) : String :=
  "Agent failed to become healthy after " ++ (toString max_attempts ++ " attempts")

/-- Delay slept at docker.rs:343 after a failed attempt:
initial_delay * 1.5^(attempt - 1), where attempt is the attempt that just
failed. There is no max_delay cap in wait_for_health. -/
def wfh_backoff (initial_delay : ℚ) (attempt : Nat) : ℚ :=
  initial_delay * (3 / 2) ^ (attempt - 1)

/-- Observable behaviour of one poll invocation: sleeps performed (in
milliseconds, in order), number of check_health probe calls, and the
returned Result. -/
structure PollTrace where
  sleeps : List ℚ
  calls : Nat
  result : Except String Unit
deriving DecidableEq

/-- Attempt loop of AgentEndpoint::wait_for_health (docker.rs:319-349),
with explicit fuel: at attempt number a the remaining iterations are
fuel = max_attempts + 1 - a, so the source test attempt < max_attempts
holds exactly when fuel is at least 2; fuel = 1 is the final attempt,
which sleeps nothing on failure and falls out of the loop into the error
return. Each iteration performs one check_health call; on success the
loop returns Ok, on failure it sleeps the backoff and retries. -/
def wfh_go (probe : Nat → Except String JsonValue) (initial_delay : ℚ)
    (msg : String) : Nat → Nat → PollTrace
  | _, 0 => ⟨[], 0, .error msg⟩
  | attempt, 1 =>
    match probe attempt with
    | .ok _ => ⟨[], 1, .ok ()⟩
    | .error _ => ⟨[], 1, .error msg⟩
  | attempt, fuel + 2 =>
    match probe attempt with
    | .ok _ => ⟨[], 1, .ok ()⟩
    | .error _ =>
      let t := wfh_go probe initial_delay msg (attempt + 1) (fuel + 1)
      ⟨wfh_backoff initial_delay attempt :: t.sleeps, t.calls + 1, t.result⟩

/-- AgentEndpoint::wait_for_health (docker.rs:307-362 = agent_endpoint.rs:
130-185): sleeps the initial delay once before the loop, then runs the
attempt loop from attempt 1 with max_attempts iterations. -/
def wait_for_health (probe : Nat → Except String JsonValue)
    (max_attempts : Nat) (initial_delay : ℚ) : PollTrace :=
  let t := wfh_go probe initial_delay (health_fail_msg max_attempts) 1 max_attempts
  ⟨initial_delay :: t.sleeps, t.calls, t.result⟩

/-- Shared loop shape of the two check_agent_health variants
(helpers.rs:222-286 and deploy_agent.rs:444-478): before every attempt
except the first, a delay (a function of the upcoming attempt number) is
slept; then the probe runs; success returns Ok, failure is only logged. -/
def cah_go (probe : Nat → Except String JsonValue) (delay : Nat → ℚ)
    (msg : String) : Nat → Nat → PollTrace
  | _, 0 => ⟨[], 0, .error msg⟩
  | attempt, fuel + 1 =>
    let pre : List ℚ := if 1 < attempt then [delay attempt] else []
    match probe attempt with
    | .ok _ => ⟨pre, 1, .ok ()⟩
    | .error _ =>
      let t := cah_go probe delay msg (attempt + 1) fuel
      ⟨pre ++ t.sleeps, t.calls + 1, t.result⟩

/-- Delay computed at helpers.rs:231-234 before the upcoming attempt
(attempt is at least 2 there): min(initial_delay * 1.5^(attempt - 1),
max_delay), with initial_delay = 1000 ms and max_delay = 5000 ms
(helpers.rs:152-154). -/
def helpers_backoff (attempt : Nat) : ℚ :=
  min (1000 * (3 / 2) ^ (attempt - 1)) 5000

/-- check_agent_health of helpers.rs:147-296: max_attempts = 15, no sleep
before attempt 1 (the pre-loop TCP and docker-logs diagnostics perform no
sleep), one check_health probe per iteration; the plain GET issued every
third attempt at helpers.rs:240-257 is extra diagnostics, not the health
probe. -/
def helpers_check_agent_health (probe : Nat → Except String JsonValue) : PollTrace :=
  cah_go probe helpers_backoff (health_fail_msg 15) 1 15

/-- Delay computed at deploy_agent.rs:453 before the upcoming attempt:
initial_delay * (1 + attempt * 0.2) with initial_delay = 500 ms; the f32
literal 0.2 is idealized as 1/5 (the difference is below 2^-23 relative
and no statement below depends on it). -/
def deploy_backoff (attempt : Nat) : ℚ :=
  500 * (1 + (attempt : ℚ) * (1 / 5))

/-- check_agent_health of deploy_agent.rs:427-488: max_attempts = 15, no
pre-loop sleep, linear uncapped backoff. -/
def deploy_check_agent_health (probe : Nat → Except String JsonValue) : PollTrace :=
  cah_go probe deploy_backoff (health_fail_msg 15) 1 15

/-- Small-step run relation for the wait_for_health attempt loop
(docker.rs:319-349): WfhRun probe max init a t says that one run of the
loop starting at attempt number a produces trace t. The stateful loop is
modelled by this relation; wfh_go is its functional presentation. -/
inductive WfhRun (probe : Nat → Except String JsonValue) (max_attempts : Nat)
    (initial_delay : ℚ) : Nat → PollTrace → Prop
  | exhausted (a : Nat) (h : max_attempts < a) :
      WfhRun probe max_attempts initial_delay a
        ⟨[], 0, .error (health_fail_msg max_attempts)⟩
  | healthy (a : Nat) (j : JsonValue) (ha : a ≤ max_attempts)
      (hp : probe a = .ok j) :
      WfhRun probe max_attempts initial_delay a ⟨[], 1, .ok ()⟩
  | retry (a : Nat) (e : String) (t : PollTrace) (ha : a < max_attempts)
      (hp : probe a = .error e)
      (ih : WfhRun probe max_attempts initial_delay (a + 1) t) :
      WfhRun probe max_attempts initial_delay a
        ⟨wfh_backoff initial_delay a :: t.sleeps, t.calls + 1, t.result⟩
  | lastFail (e : String) (t : PollTrace)
      (hp : probe max_attempts = .error e)
      (ih : WfhRun probe max_attempts initial_delay (max_attempts + 1) t) :
      WfhRun probe max_attempts initial_delay max_attempts
        ⟨t.sleeps, t.calls + 1, t.result⟩

/-- AgentDeploymentResult (types.rs:77-84). -/
structure AgentDeploymentResult where
  agent_id : String
  deployment_id : String
  endpoint : Option String
  tee_pubkey : Option String
  tee_app_id : Option String
deriving DecidableEq

/-- Tail of deploy_locally (deploy_agent.rs:264-332) after the
docker-compose launch has succeeded: the endpoint is fixed to
localhost:port, the health verdict is matched only for logging and
best-effort diagnostics, and the result record is built identically on
both arms (serialization of the record, which cannot fail on it, is
modelled as the record itself). -/
def deploy_locally_outcome (agent_id deployment_id : String) (port : Nat)
    (health : Except String Unit) : Except String AgentDeploymentResult :=
  let endpoint := "http://localhost:" ++ toString port
  match health with
  | .ok _ => .ok ⟨agent_id, deployment_id, some endpoint, none, none⟩
  | .error _ => .ok ⟨agent_id, deployment_id, some endpoint, none, none⟩

/-- Addition of u16 values as compiled in a release build: wraps modulo
2^16. Used by create_agent.rs:36 and deploy_agent.rs:550. -/
def u16_add (a b : Nat) : Nat := (a + b) % 65536

/-- Port derivation of handle_create_agent (create_agent.rs:34-36):
http port from the deployment config or default 3000, websocket port is
http + 1 on u16. -/
def handle_create_agent_ports (http_port : Option Nat) : Nat × Nat :=
  let hp := http_port.getD 3000
  (hp, u16_add hp 1)

/-- Port derivation of create_agent_compose_config (docker.rs:33-34): the
two ports default independently, to 3000 and 3001. -/
def compose_config_ports (http_port websocket_port : Option Nat) : Nat × Nat :=
  (http_port.getD 3000, websocket_port.getD 3001)

/-- Digit-string accumulator for str::parse::<u16>. -/
def parse_u16_chars : List Char → Nat → Option Nat
  | [], acc => some acc
  | c :: cs, acc =>
    if c.isDigit then parse_u16_chars cs (acc * 10 + (c.toNat - 48)) else none

/-- str::parse::<u16> on the host-port substring: nonempty decimal digits
whose value fits in u16 (deploy_agent.rs:533). -/
def parse_u16 (s : String) : Option Nat :=
  match s.data with
  | [] => none
  | l =>
    match parse_u16_chars l 0 with
    | some n => if n < 65536 then some n else none
    | none => none

/-- Host part of a port mapping (deploy_agent.rs:530-541): the substring
before the first colon, or the whole string when there is no colon. -/
def host_part (pm : String) : String :=
  ⟨pm.data.takeWhile (fun c => c ≠ ':')⟩

/-- extract_port_config (deploy_agent.rs:507-554), starting from the
parsed first service ports list (none or [] means no ports were
specified): http port parsed from the host part of the first mapping, or
default 3000; websocket port is http + 1 on u16. -/
def extract_port_config_ports (ports : Option (List String)) :
    Except String (Nat × Nat) :=
  let http : Except String Nat :=
    match ports with
    | some (pm :: _) =>
      match parse_u16 (host_part pm) with
      | some p => .ok p
      | none => .error ("Failed to parse host port from " ++ pm)
    | _ => .ok 3000
  match http with
  | .ok p => .ok (p, u16_add p 1)
  | .error e => .error e

/-! Helper lemmas (shared; none of them is a claim theorem). -/

theorem string_data_append (p a : String) : (p ++ a).data = p.data ++ a.data := by
  cases p; cases a; rfl

theorem head_of_append (p a : String) (c : Char) (hc : p.data.head? = some c) :
    (p ++ a).data.head? = some c := by
  rw [string_data_append]
  cases hp : p.data with
  | nil => rw [hp] at hc; cases hc
  | cons x t =>
    rw [hp] at hc
    rw [List.cons_append]
    simpa using hc

theorem append_ne (p a q b : String) (c d : Char) (hc : p.data.head? = some c)
    (hd : q.data.head? = some d) (hcd : c ≠ d) : p ++ a ≠ q ++ b := by
  intro h
  have h1 := head_of_append p a c hc
  rw [h] at h1
  have h2 := head_of_append q b d hd
  exact hcd (Option.some.inj (h1.symm.trans h2))

theorem parse_fail_ne_transport (pe tr : String) (e : ReqwestError) :
    parse_fail_msg pe ≠ transport_error_msg tr e := by
  unfold parse_fail_msg transport_error_msg timed_out_msg connect_error_msg request_failed_msg
  split
  · exact append_ne _ _ _ _ 'F' 'H' rfl rfl (by decide)
  · split
    · exact append_ne _ _ _ _ 'F' 'C' rfl rfl (by decide)
    · exact append_ne _ _ _ _ 'F' 'H' rfl rfl (by decide)

theorem wfh_go_all_fail (probe : Nat → Except String JsonValue) (initial_delay : ℚ)
    (msg : String) (hf : ∀ i, ∃ e, probe i = .error e) :
    ∀ fuel attempt, wfh_go probe initial_delay msg attempt fuel =
      ⟨(List.range' attempt (fuel - 1)).map (wfh_backoff initial_delay), fuel, .error msg⟩ := by
  intro fuel
  induction fuel with
  | zero => intro a; simp [wfh_go]
  | succ f ih =>
    intro a
    obtain ⟨e, he⟩ := hf a
    cases f with
    | zero => simp [wfh_go, he]
    | succ g =>
      simp only [wfh_go, he]
      rw [ih (a + 1)]
      simp [List.range'_succ]

theorem wfh_go_ok_at (probe : Nat → Except String JsonValue) (initial_delay : ℚ)
    (msg : String) (j : JsonValue) :
    ∀ d attempt fuel,
      (∀ i, attempt ≤ i → i < attempt + d → ∃ e, probe i = .error e) →
      probe (attempt + d) = .ok j → d < fuel →
      (wfh_go probe initial_delay msg attempt fuel).calls = d + 1 ∧
      (wfh_go probe initial_delay msg attempt fuel).result = .ok () := by
  intro d
  induction d with
  | zero =>
    intro a fuel hfail hok hlt
    rw [Nat.add_zero] at hok
    obtain ⟨f, rfl⟩ : ∃ f, fuel = f + 1 := ⟨fuel - 1, by omega⟩
    cases f with
    | zero => simp [wfh_go, hok]
    | succ g => simp [wfh_go, hok]
  | succ d ih =>
    intro a fuel hfail hok hlt
    obtain ⟨g, rfl⟩ : ∃ g, fuel = g + 2 := ⟨fuel - 2, by omega⟩
    obtain ⟨e, he⟩ := hfail a (Nat.le_refl a) (by omega)
    have hstep := ih (a + 1) (g + 1)
      (fun i h1 h2 => hfail i (by omega) (by omega))
      (by rw [show a + 1 + d = a + (d + 1) by omega]; exact hok) (by omega)
    simp [wfh_go, he, hstep.1, hstep.2]

theorem cah_go_all_fail_ge2 (probe : Nat → Except String JsonValue) (delay : Nat → ℚ)
    (msg : String) (hf : ∀ i, ∃ e, probe i = .error e) :
    ∀ fuel attempt, 2 ≤ attempt →
      cah_go probe delay msg attempt fuel =
        ⟨(List.range' attempt fuel).map delay, fuel, .error msg⟩ := by
  intro fuel
  induction fuel with
  | zero => intro a _; rfl
  | succ f ih =>
    intro a ha
    obtain ⟨e, he⟩ := hf a
    have h1 : 1 < a := ha
    simp only [cah_go, he, if_pos h1]
    rw [ih (a + 1) (by omega)]
    simp [List.range'_succ]

theorem cah_all_fail (probe : Nat → Except String JsonValue) (delay : Nat → ℚ)
    (msg : String) (hf : ∀ i, ∃ e, probe i = .error e) (fuel : Nat) :
    cah_go probe delay msg 1 (fuel + 1) =
      ⟨(List.range' 2 fuel).map delay, fuel + 1, .error msg⟩ := by
  obtain ⟨e, he⟩ := hf 1
  simp only [cah_go, he]
  rw [cah_go_all_fail_ge2 probe delay msg hf fuel 2 (Nat.le_refl 2)]
  simp

theorem wfhRun_eq (probe : Nat → Except String JsonValue) (max_attempts : Nat)
    (initial_delay : ℚ) :
    ∀ attempt t, WfhRun probe max_attempts initial_delay attempt t →
      t = wfh_go probe initial_delay (health_fail_msg max_attempts) attempt
            (max_attempts + 1 - attempt) := by
  intro attempt t h
  induction h with
  | exhausted a h =>
    have h0 : max_attempts + 1 - a = 0 := by omega
    rw [h0]
    simp [wfh_go]
  | healthy a j ha hp =>
    obtain ⟨f, hfe⟩ : ∃ f, max_attempts + 1 - a = f + 1 := ⟨max_attempts - a, by omega⟩
    rw [hfe]
    cases f with
    | zero => simp [wfh_go, hp]
    | succ g => simp [wfh_go, hp]
  | retry a e t ha hp ihr ih =>
    obtain ⟨f, hfe⟩ : ∃ f, max_attempts + 1 - a = f + 2 := ⟨max_attempts - a - 1, by omega⟩
    rw [hfe]
    have ht : max_attempts + 1 - (a + 1) = f + 1 := by omega
    rw [ht] at ih
    subst ih
    simp [wfh_go, hp]
  | lastFail e t hp ihr ih =>
    have h1 : max_attempts + 1 - max_attempts = 1 := by omega
    rw [h1]
    have ht : max_attempts + 1 - (max_attempts + 1) = 0 := by omega
    rw [ht] at ih
    subst ih
    simp [wfh_go, hp]

/-! Claim theorems. -/

/-- C1 counterexample: the claim says the Failed verdict carries the last
classified outcome observed, but two all-failing runs of wait_for_health
whose probes fail with different classified outcomes return the very same
value (the error string mentions only the attempt count), so the verdict
cannot carry the last outcome. -/
theorem wait_for_health_drops_last_outcome :
    wait_for_health
        (fun _ => .error "Connection error during health check: connection refused") 2 1000
      = wait_for_health
        (fun _ => .error "Health check timed out after 3s: operation timed out") 2 1000
    ∧ ("Connection error during health check: connection refused" : String)
      ≠ "Health check timed out after 3s: operation timed out" := by
  exact ⟨rfl, by decide⟩

/-- C1 (amended): for every policy with max_attempts = n and a probe that
fails on every attempt, wait_for_health performs exactly n probe calls and
returns the Failed error carrying attempts_made = n (the last classified
outcome is logged but not part of the returned value); likewise
check_agent_health of helpers.rs with its fixed n = 15. -/
theorem poller_all_fail_verdict (probe : Nat → Except String JsonValue)
    (max_attempts : Nat) (initial_delay : ℚ)
    (hf : ∀ i, ∃ e, probe i = .error e) :
    (wait_for_health probe max_attempts initial_delay).calls = max_attempts
    ∧ (wait_for_health probe max_attempts initial_delay).result
        = .error (health_fail_msg max_attempts)
    ∧ (helpers_check_agent_health probe).calls = 15
    ∧ (helpers_check_agent_health probe).result = .error (health_fail_msg 15) := by
  have h1 := wfh_go_all_fail probe initial_delay (health_fail_msg max_attempts) hf
    max_attempts 1
  have h2 := cah_all_fail probe helpers_backoff (health_fail_msg 15) hf 14
  have e15 : (14 : Nat) + 1 = 15 := rfl
  rw [e15] at h2
  refine ⟨?_, ?_, ?_, ?_⟩ <;>
    simp [wait_for_health, helpers_check_agent_health, h1, h2]

/-- C1 witness: the amended theorem applied to the always-failing probe
with max_attempts = 3 and initial_delay = 100 ms. -/
theorem poller_all_fail_verdict_witness :
    (∀ i : Nat, ∃ e, (fun _ : Nat => (Except.error "connection refused" :
        Except String JsonValue)) i = .error e)
    ∧ (wait_for_health (fun _ => .error "connection refused") 3 100).calls = 3
    ∧ (wait_for_health (fun _ => .error "connection refused") 3 100).result
        = .error (health_fail_msg 3) := by
  have hf : ∀ i : Nat, ∃ e, (fun _ : Nat => (Except.error "connection refused" :
      Except String JsonValue)) i = .error e := fun _ => ⟨"connection refused", rfl⟩
  exact ⟨hf, (poller_all_fail_verdict _ 3 100 hf).1, (poller_all_fail_verdict _ 3 100 hf).2.1⟩

/-- C2: for every policy and every k with 1 ≤ k ≤ max_attempts, if the
probe fails on attempts 1..k-1 and succeeds on attempt k, wait_for_health
returns Ok after exactly k probe calls; k = max_attempts is included, so a
Healthy outcome on the final allowed attempt still yields Ready. -/
theorem wait_for_health_ready_at_k (probe : Nat → Except String JsonValue)
    (max_attempts k : Nat) (initial_delay : ℚ) (j : JsonValue)
    (hk1 : 1 ≤ k) (hk : k ≤ max_attempts)
    (hfail : ∀ i, 1 ≤ i → i < k → ∃ e, probe i = .error e)
    (hok : probe k = .ok j) :
    (wait_for_health probe max_attempts initial_delay).calls = k
    ∧ (wait_for_health probe max_attempts initial_delay).result = .ok () := by
  have hstep := wfh_go_ok_at probe initial_delay (health_fail_msg max_attempts) j (k - 1) 1
    max_attempts (fun i h1 h2 => hfail i h1 (by omega))
    (by rw [show 1 + (k - 1) = k by omega]; exact hok) (by omega)
  constructor
  · show (wfh_go probe initial_delay (health_fail_msg max_attempts) 1 max_attempts).calls = k
    have hc := hstep.1
    omega
  · show (wfh_go probe initial_delay (health_fail_msg max_attempts) 1 max_attempts).result
      = .ok ()
    exact hstep.2

/-- C2 witness: the theorem applied to a probe failing on attempts 1 and 2
and healthy on attempt 3, with max_attempts = 3 (success on the final
allowed attempt). -/
theorem wait_for_health_ready_at_k_witness :
    (wait_for_health
        (fun i => if i < 3 then .error "connection refused" else .ok .null) 3 100).calls = 3
    ∧ (wait_for_health
        (fun i => if i < 3 then .error "connection refused" else .ok .null) 3 100).result
      = .ok () :=
  wait_for_health_ready_at_k _ 3 3 100 .null (by omega) (by omega)
    (fun i _ h2 => ⟨"connection refused", if_pos h2⟩) rfl

/-- C3 counterexample: after a failure on attempt 1, check_agent_health of
helpers.rs sleeps 1500 ms before attempt 2 (its exponent is the upcoming
attempt number minus one, i.e. 1), whereas the claimed formula
min(initial_delay * multiplier^(i-1), max_delay) with i = 1 gives 1000 ms. -/
theorem helpers_backoff_off_by_one :
    (helpers_check_agent_health
        (fun a => if a = 1 then .error "connection refused" else .ok .null)).sleeps = [1500]
    ∧ min ((1000 : ℚ) * (3 / 2) ^ (1 - 1)) 5000 = 1000
    ∧ ((1500 : ℚ) ≠ 1000) := by
  have hb : helpers_backoff 2 = 1500 := by
    rw [helpers_backoff, min_eq_left (by norm_num)]
    norm_num
  have ht : (helpers_check_agent_health
      (fun a => if a = 1 then .error "connection refused" else .ok .null)).sleeps
      = [helpers_backoff 2] := rfl
  refine ⟨?_, by rw [min_eq_left (by norm_num)]; norm_num, by norm_num⟩
  rw [ht, hb]

/-- C3 (amended): for an always-failing probe, wait_for_health sleeps the
initial delay and then, after each failed attempt i < max_attempts,
exactly initial_delay * 1.5^(i-1) with no max_delay cap; helpers'
check_agent_health instead sleeps min(1000 * 1.5^i, 5000) ms between
attempts i and i+1 (one power higher than the claim), and deploy_agent's
check_agent_health uses the linear schedule 500 * (1 + a/5) ms before
attempt a, not an exponential one. -/
theorem poller_backoff_schedules (probe : Nat → Except String JsonValue)
    (max_attempts : Nat) (initial_delay : ℚ)
    (hf : ∀ i, ∃ e, probe i = .error e) :
    (wait_for_health probe max_attempts initial_delay).sleeps
      = initial_delay :: (List.range' 1 (max_attempts - 1)).map (wfh_backoff initial_delay)
    ∧ (∀ i, wfh_backoff initial_delay i = initial_delay * (3 / 2) ^ (i - 1))
    ∧ (helpers_check_agent_health probe).sleeps = (List.range' 2 14).map helpers_backoff
    ∧ (∀ i, helpers_backoff (i + 1) = min (1000 * (3 / 2) ^ i) 5000)
    ∧ (deploy_check_agent_health probe).sleeps = (List.range' 2 14).map deploy_backoff
    ∧ (∀ i, deploy_backoff i = 500 * (1 + (i : ℚ) / 5)) := by
  have h1 := wfh_go_all_fail probe initial_delay (health_fail_msg max_attempts) hf
    max_attempts 1
  have h2 := cah_all_fail probe helpers_backoff (health_fail_msg 15) hf 14
  have h3 := cah_all_fail probe deploy_backoff (health_fail_msg 15) hf 14
  have e15 : (14 : Nat) + 1 = 15 := rfl
  rw [e15] at h2 h3
  refine ⟨?_, fun i => rfl, ?_, fun i => by simp [helpers_backoff], ?_,
    fun i => by rw [deploy_backoff]; ring⟩
  · simp [wait_for_health, h1]
  · simp [helpers_check_agent_health, h2]
  · simp [deploy_check_agent_health, h3]

/-- C3 witness: the amended theorem applied to the always-failing probe
with max_attempts = 3 and initial_delay = 100 ms. -/
theorem poller_backoff_schedules_witness :
    (∀ i : Nat, ∃ e, (fun _ : Nat => (Except.error "timed out" :
        Except String JsonValue)) i = .error e)
    ∧ (wait_for_health (fun _ => .error "timed out") 3 100).sleeps
        = 100 :: (List.range' 1 2).map (wfh_backoff 100)
    ∧ (helpers_check_agent_health (fun _ => .error "timed out")).sleeps
        = (List.range' 2 14).map helpers_backoff := by
  have hf : ∀ i : Nat, ∃ e, (fun _ : Nat => (Except.error "timed out" :
      Except String JsonValue)) i = .error e := fun _ => ⟨"timed out", rfl⟩
  exact ⟨hf, (poller_backoff_schedules _ 3 100 hf).1,
    (poller_backoff_schedules _ 3 100 hf).2.2.1⟩

/-- C4 counterexample: the claim says a reset or closed connection is
classified into a dedicated ConnectionReset kind, but check_health maps a
reset error (neither the timeout nor the connect flag set) into the same
catch-all request-failed message as an arbitrary other transport failure,
and not into the connection-error kind; there is no reset-specific
outcome. -/
theorem transport_reset_not_distinguished :
    transport_error_msg "5s" ⟨false, false, "tcp connect error: connection reset by peer"⟩
      = request_failed_msg "tcp connect error: connection reset by peer"
    ∧ transport_error_msg "5s" ⟨false, false, "error decoding response body"⟩
      = request_failed_msg "error decoding response body"
    ∧ transport_error_msg "5s" ⟨false, false, "tcp connect error: connection reset by peer"⟩
      ≠ connect_error_msg "tcp connect error: connection reset by peer" := by
  refine ⟨rfl, rfl, ?_⟩
  decide

/-- C4 (amended): check_health classifies a transport failure into exactly
one of three kinds by the structure of the error: a deadline exceeded
produces the timed-out message, a connect failure (connection refused
among others) produces the connection-error message, and everything else
(resets and closed connections included) produces the request-failed
message with the raw error text retained. -/
theorem transport_error_classification (tr : String) (e : ReqwestError) :
    (transport_error_msg tr e = timed_out_msg tr e.message
      ∨ transport_error_msg tr e = connect_error_msg e.message
      ∨ transport_error_msg tr e = request_failed_msg e.message)
    ∧ (e.is_timeout = true → transport_error_msg tr e = timed_out_msg tr e.message)
    ∧ (e.is_timeout = false → e.is_connect = true →
        transport_error_msg tr e = connect_error_msg e.message)
    ∧ (e.is_timeout = false → e.is_connect = false →
        transport_error_msg tr e = request_failed_msg e.message) := by
  obtain ⟨ht, hc, m⟩ := e
  cases ht <;> cases hc <;> simp [transport_error_msg]

/-- C4 witness: the classification theorem applied to a concrete
connection-refused error (connect flag set). -/
theorem transport_error_classification_witness :
    (transport_error_msg "5s" ⟨false, true, "connection refused"⟩
        = timed_out_msg "5s" "connection refused"
      ∨ transport_error_msg "5s" ⟨false, true, "connection refused"⟩
        = connect_error_msg "connection refused"
      ∨ transport_error_msg "5s" ⟨false, true, "connection refused"⟩
        = request_failed_msg "connection refused")
    ∧ ((false : Bool) = true → transport_error_msg "5s" ⟨false, true, "connection refused"⟩
        = timed_out_msg "5s" "connection refused")
    ∧ ((false : Bool) = false → (true : Bool) = true →
        transport_error_msg "5s" ⟨false, true, "connection refused"⟩
          = connect_error_msg "connection refused")
    ∧ ((false : Bool) = false → (true : Bool) = false →
        transport_error_msg "5s" ⟨false, true, "connection refused"⟩
          = request_failed_msg "connection refused") :=
  transport_error_classification "5s" ⟨false, true, "connection refused"⟩

/-- C5: check_health returns a success value exactly when the response
arrived with a 2xx status and its body was read and parsed as JSON; a
non-2xx response yields the error carrying the status and the body text
(or the placeholder when the body cannot be read, folded into error_text);
and a 2xx response with a malformed body yields the parse-failure outcome,
which differs from the outcome of every transport error. -/
theorem check_health_response_semantics (parse : String → Except String JsonValue)
    (tr : String) (sent : Except ReqwestError HttpResponse) :
    ((∃ j, check_health parse tr sent = .ok j) ↔
      (∃ r b j, sent = .ok r ∧ status_is_success r.status = true
        ∧ r.body = .ok b ∧ parse b = .ok j))
    ∧ (∀ r, sent = .ok r → status_is_success r.status = false →
        check_health parse tr sent
          = .error (http_error_msg r.status (error_text r.body)))
    ∧ (∀ r b pe, sent = .ok r → status_is_success r.status = true →
        r.body = .ok b → parse b = .error pe →
        check_health parse tr sent = .error (parse_fail_msg pe)
        ∧ ∀ e : ReqwestError,
            check_health parse tr sent ≠ check_health parse tr (.error e)) := by
  refine ⟨⟨?_, ?_⟩, ?_, ?_⟩
  · rintro ⟨j, hj⟩
    cases sent with
    | error e => simp [check_health] at hj
    | ok r =>
      cases hs : status_is_success r.status with
      | false => simp [check_health, hs] at hj
      | true =>
        cases hb : r.body with
        | error be => simp [check_health, hs, hb] at hj
        | ok b =>
          cases hp : parse b with
          | error pe => simp [check_health, hs, hb, hp] at hj
          | ok j2 => exact ⟨r, b, j2, rfl, hs, hb, hp⟩
  · rintro ⟨r, b, j, rfl, hs, hb, hp⟩
    exact ⟨j, by simp [check_health, hs, hb, hp]⟩
  · rintro r rfl hs
    simp [check_health, hs]
  · rintro r b pe rfl hs hb hp
    refine ⟨by simp [check_health, hs, hb, hp], ?_⟩
    intro e2
    simp only [check_health, hs, hb, hp, if_true]
    intro hcontra
    exact parse_fail_ne_transport pe tr e2 (Except.error.inj hcontra)

/-- C5 witness: the theorem applied to a stub JSON parser, a 2xx response
with the parseable body, and concrete inputs. -/
theorem check_health_response_semantics_witness :
    ((∃ j, check_health
        (fun s => if s = "null" then .ok .null else .error "expected value") "5s"
        (.ok ⟨200, .ok "null"⟩) = .ok j) ↔
      (∃ r b j, (Except.ok ⟨200, Except.ok "null"⟩ :
            Except ReqwestError HttpResponse) = .ok r
        ∧ status_is_success r.status = true ∧ r.body = .ok b
        ∧ (fun s => if s = "null" then (Except.ok JsonValue.null :
              Except String JsonValue) else .error "expected value") b = .ok j))
    ∧ (∀ r, (Except.ok ⟨200, Except.ok "null"⟩ :
          Except ReqwestError HttpResponse) = .ok r →
        status_is_success r.status = false →
        check_health (fun s => if s = "null" then .ok .null else .error "expected value")
          "5s" (.ok ⟨200, .ok "null"⟩)
          = .error (http_error_msg r.status (error_text r.body)))
    ∧ (∀ r b pe, (Except.ok ⟨200, Except.ok "null"⟩ :
          Except ReqwestError HttpResponse) = .ok r →
        status_is_success r.status = true → r.body = .ok b →
        (fun s => if s = "null" then (Except.ok JsonValue.null :
            Except String JsonValue) else .error "expected value") b = .error pe →
        check_health (fun s => if s = "null" then .ok .null else .error "expected value")
          "5s" (.ok ⟨200, .ok "null"⟩) = .error (parse_fail_msg pe)
        ∧ ∀ e : ReqwestError,
            check_health (fun s => if s = "null" then .ok .null else .error "expected value")
                "5s" (.ok ⟨200, .ok "null"⟩)
              ≠ check_health
                (fun s => if s = "null" then .ok .null else .error "expected value")
                "5s" (.error e)) :=
  check_health_response_semantics
    (fun s => if s = "null" then .ok .null else .error "expected value") "5s"
    (.ok ⟨200, .ok "null"⟩)

/-- C6 counterexample: the claim says the initial delay from the policy is
applied exactly once before attempt 1 in every poll invocation, but
check_agent_health of helpers.rs (whose policy sets initial_delay =
1000 ms) performs a whole poll with no sleep at all when the first attempt
succeeds: its initial delay is never slept. -/
theorem helpers_no_initial_delay :
    helpers_check_agent_health (fun _ => .ok .null) = ⟨[], 1, .ok ()⟩ := rfl

/-- C6 (amended): wait_for_health applies the initial delay exactly once,
before attempt 1, and its first probe is never preceded by a backoff
sleep; the two check_agent_health variants apply no pre-loop delay at all,
so their first probe is preceded by no sleep whatsoever. -/
theorem initial_delay_application (probe : Nat → Except String JsonValue)
    (max_attempts : Nat) (initial_delay : ℚ) (j : JsonValue)
    (hmax : 1 ≤ max_attempts) (h1 : probe 1 = .ok j) :
    (wait_for_health probe max_attempts initial_delay).sleeps.head? = some initial_delay
    ∧ wait_for_health probe max_attempts initial_delay = ⟨[initial_delay], 1, .ok ()⟩
    ∧ helpers_check_agent_health probe = ⟨[], 1, .ok ()⟩
    ∧ deploy_check_agent_health probe = ⟨[], 1, .ok ()⟩ := by
  obtain ⟨f, rfl⟩ : ∃ f, max_attempts = f + 1 := ⟨max_attempts - 1, by omega⟩
  refine ⟨rfl, ?_, ?_, ?_⟩
  · cases f with
    | zero => simp [wait_for_health, wfh_go, h1]
    | succ g => simp [wait_for_health, wfh_go, h1]
  · have h15 : helpers_check_agent_health probe
        = cah_go probe helpers_backoff (health_fail_msg 15) 1 (14 + 1) := rfl
    rw [h15]
    simp [cah_go, h1]
  · have h15 : deploy_check_agent_health probe
        = cah_go probe deploy_backoff (health_fail_msg 15) 1 (14 + 1) := rfl
    rw [h15]
    simp [cah_go, h1]

/-- C6 witness: the amended theorem applied to a probe that is healthy on
attempt 1, with max_attempts = 3 and initial_delay = 250 ms. -/
theorem initial_delay_application_witness :
    (1 : Nat) ≤ 3
    ∧ (fun _ : Nat => (Except.ok JsonValue.null : Except String JsonValue)) 1 = .ok .null
    ∧ wait_for_health (fun _ => .ok .null) 3 250 = ⟨[250], 1, .ok ()⟩
    ∧ helpers_check_agent_health (fun _ => .ok .null) = ⟨[], 1, .ok ()⟩ := by
  have h := initial_delay_application (fun _ => .ok .null) 3 250 .null (by omega) rfl
  exact ⟨by omega, rfl, h.2.1, h.2.2.1⟩

/-- C7: for a local deployment whose container launch succeeded, the tail
of deploy_locally returns the successful deployment result carrying the
localhost endpoint no matter how the readiness poll ended; a Failed health
verdict is logged but does not change the returned value. -/
theorem deploy_locally_reports_started (agent_id deployment_id : String) (port : Nat)
    (health : Except String Unit) :
    deploy_locally_outcome agent_id deployment_id port health
      = .ok ⟨agent_id, deployment_id, some ("http://localhost:" ++ toString port),
          none, none⟩ := by
  cases health <;> rfl

/-- C8: the poller is deterministic — any two runs of the wait_for_health
attempt loop over the same scripted probe outcomes and the same policy
produce the same trace: the same sleep sequence, the same number of probe
calls and the same final verdict. -/
theorem wait_for_health_deterministic (probe : Nat → Except String JsonValue)
    (max_attempts : Nat) (initial_delay : ℚ) (t₁ t₂ : PollTrace)
    (h₁ : WfhRun probe max_attempts initial_delay 1 t₁)
    (h₂ : WfhRun probe max_attempts initial_delay 1 t₂) : t₁ = t₂ := by
  rw [wfhRun_eq probe max_attempts initial_delay 1 t₁ h₁,
    wfhRun_eq probe max_attempts initial_delay 1 t₂ h₂]

/-- C8 witness: two concrete runs of the loop over a probe healthy on
attempt 1 with max_attempts = 1, shown equal by the determinism theorem. -/
theorem wait_for_health_deterministic_witness :
    (⟨[], 1, .ok ()⟩ : PollTrace) = ⟨[], 1, .ok ()⟩ :=
  wait_for_health_deterministic (fun _ => .ok .null) 1 100 _ _
    (WfhRun.healthy 1 .null (by omega) rfl)
    (WfhRun.healthy 1 .null (by omega) rfl)

/-- C9 counterexample: the claim says the companion websocket port equals
http_port + 1 in every port derivation including compose-file generation,
but create_agent_compose_config defaults the websocket port to 3001
independently of the supplied http port. -/
theorem compose_config_ws_independent :
    compose_config_ports (some 5000) none = (5000, 3001)
    ∧ (3001 : Nat) ≠ 5000 + 1 := by
  refine ⟨rfl, by omega⟩

/-- C9 (amended): handle_create_agent and extract_port_config derive the
http port from the caller-supplied value (or parse it from the first
compose port mapping) with default 3000 and set the websocket port to
http + 1 (on u16, hence for http ≤ 65534); create_agent_compose_config
takes the websocket port as an independent argument with default 3001, so
there the +1 convention holds only when the caller passes consistent
values (as handle_create_agent does) or both ports default. -/
theorem port_derivation_sites (p ws q : Nat) (pm : String) (rest : List String)
    (hp : p ≤ 65534) (hq : parse_u16 (host_part pm) = some q) (hq2 : q ≤ 65534) :
    handle_create_agent_ports (some p) = (p, p + 1)
    ∧ handle_create_agent_ports none = (3000, 3001)
    ∧ compose_config_ports (some p) (some ws) = (p, ws)
    ∧ compose_config_ports none none = (3000, 3001)
    ∧ extract_port_config_ports none = .ok (3000, 3001)
    ∧ extract_port_config_ports (some []) = .ok (3000, 3001)
    ∧ extract_port_config_ports (some (pm :: rest)) = .ok (q, q + 1) := by
  refine ⟨?_, rfl, rfl, rfl, rfl, rfl, ?_⟩
  · have hm : (p + 1) % 65536 = p + 1 := by omega
    simp only [handle_create_agent_ports, Option.getD_some, u16_add, hm]
  · have hm : (q + 1) % 65536 = q + 1 := by omega
    simp only [extract_port_config_ports, hq, u16_add, hm]

/-- C9 witness: the amended theorem applied to http port 8080, websocket
port 8081 and the compose mapping string of the 8080 pair. -/
theorem port_derivation_sites_witness :
    (8080 : Nat) ≤ 65534
    ∧ parse_u16 (host_part "8080:8080") = some 8080
    ∧ handle_create_agent_ports (some 8080) = (8080, 8080 + 1)
    ∧ extract_port_config_ports (some ["8080:8080"]) = .ok (8080, 8080 + 1) := by
  have h1 : (8080 : Nat) ≤ 65534 := by omega
  have h2 : parse_u16 (host_part "8080:8080") = some 8080 := by decide
  have h := port_derivation_sites 8080 8081 8080 "8080:8080" [] h1 h2 h1
  exact ⟨h1, h2, h.1, h.2.2.2.2.2.2⟩

/-- C10: the websocket port is http_port + 1 on u16 with no overflow
guard: the convention holds for every caller-supplied http port up to
65534, while http port 65535 wraps to 0 modulo 2^16 (both in
handle_create_agent and in extract_port_config), producing no valid
companion port at the maximum port value. -/
theorem websocket_port_u16_overflow :
    (∀ p, p ≤ 65534 → (handle_create_agent_ports (some p)).2 = p + 1)
    ∧ (handle_create_agent_ports (some 65535)).2 = 0
    ∧ extract_port_config_ports (some ["65535:65535"]) = .ok (65535, 0) := by
  refine ⟨fun p hp => ?_, by decide, by decide⟩
  simp only [handle_create_agent_ports, Option.getD_some, u16_add]
  omega

/-- C10 witness: the theorem applied at the in-range port 3000. -/
theorem websocket_port_u16_overflow_witness :
    (3000 : Nat) ≤ 65534 ∧ (handle_create_agent_ports (some 3000)).2 = 3000 + 1 :=
  ⟨by omega, websocket_port_u16_overflow.1 3000 (by omega)⟩

end CoinbaseAgentKit
